import Mathlib

/-!
Verification development for the Onedot supplier-catalog pipeline.
The repository contains two parallel implementations of the same
three-stage pipeline (aggregation, normalization, integration):
`onedot_solution.py` (embedded here in namespace `OS`) and
`onedot_data_analyst_solution.py` (namespace `DAS`).

Cell values in the pandas frames are modelled by `Val`: a JSON string,
a missing cell (numpy NaN), Python `None`, or a Python integer.
Python-level operations (truthiness, `==`, `in`, `.strip()`, `.lower()`,
dict lookup with `try/except KeyError`) are modelled explicitly; an
operation that raises in Python is modelled with `Except String`.
-/

inductive Val where
  | str (s : String)
  | nan
  | pyNone
  | int (n : Int)
deriving DecidableEq

/-- Python truthiness of a cell value.  Note `bool(float("nan"))` is
`True` in Python, so a missing pandas cell is truthy. -/
def pyTruthy : Val → Bool
  | .str s => s != ""
  | .nan => true
  | .pyNone => false
  | .int n => n != 0

/-- Python `v != lit` for a string literal `lit`: only a string equal to
`lit` compares equal; NaN, None and ints are never equal to a string. -/
def pyNeLit (v : Val) (lit : String) : Bool :=
  match v with
  | .str s => s != lit
  | _ => true

/-- Python `v == n` for an integer literal (used by `onedot_solution.py`
on the Seats column): a string never equals an int. -/
def pyEqInt (v : Val) (n : Int) : Bool :=
  match v with
  | .int m => m == n
  | _ => false

/-- Python `v == lit` for a string literal (used by
`onedot_data_analyst_solution.py` on the Seats column). -/
def pyEqLit (v : Val) (lit : String) : Bool :=
  match v with
  | .str s => s == lit
  | _ => false

/-- Python `d[v]` on a string-keyed dict wrapped in `try/except KeyError`:
a non-string cell (NaN, None, int) is simply not a key, so the lookup
misses; `none` models the KeyError path. -/
def pyLookup (table : List (String × String)) (v : Val) : Option String :=
  match v with
  | .str s => (table.find? (fun p => p.1 == s)).map (fun p => p.2)
  | _ => none

/-- Does `hay` begin with `needle` (character lists)? -/
def leadMatch : List Char → List Char → Bool
  | [], _ => true
  | _ :: _, [] => false
  | a :: as, b :: bs => a == b && leadMatch as bs

/-- Substring containment on character lists (Python `needle in hay`). -/
def containsList (needle : List Char) : List Char → Bool
  | [] => leadMatch needle []
  | c :: cs => leadMatch needle (c :: cs) || containsList needle cs

/-- Python `needle in hay` for strings. -/
def strContains (needle hay : String) : Bool :=
  containsList needle.data hay.data

/-- Python `needle in v` on a cell value: raises TypeError when the cell
is not a string (`in` on a float/None/int is not iterable). -/
def pyInVal (needle : String) (v : Val) : Except String Bool :=
  match v with
  | .str s => .ok (strContains needle s)
  | _ => .error "TypeError"

/-- The whitespace characters removed by Python `str.strip()`
(ASCII portion, which covers all data in this pipeline). -/
def isPySpace (c : Char) : Bool :=
  c == ' ' || c == '\t' || c == '\n' || c == '\r' || c == '\x0b' || c == '\x0c'

def ltrimChars (cs : List Char) : List Char := cs.dropWhile isPySpace

def rtrimChars (cs : List Char) : List Char :=
  (cs.reverse.dropWhile isPySpace).reverse

/-- Python `str.strip()`. -/
def stripChars (cs : List Char) : List Char := rtrimChars (ltrimChars cs)

/-- Python `.strip()` on a cell value: raises AttributeError when the
cell is not a string. -/
def pyStrip (v : Val) : Except String (List Char) :=
  match v with
  | .str s => .ok (stripChars s.data)
  | _ => .error "AttributeError"

/-- ASCII lower-casing of one character (Python `str.lower()` on the
ASCII data this pipeline compares case-insensitively). -/
def lowerChar (c : Char) : Char :=
  if 'A' ≤ c ∧ c ≤ 'Z' then Char.ofNat (c.toNat + 32) else c

/-- One aggregated/normalized record: the six constant columns of the
grouping key together with every attribute column the two solutions
read.  A record that lacks an attribute holds `Val.nan` there, exactly
as the aggregated pandas frame does.  The `condition`, `variant` and
`zip` columns are created by normalization and hold `Val.nan` before. -/
structure Record where
  id : Val
  makeText : Val
  typeName : Val
  typeNameFull : Val
  modelText : Val
  modelTypeText : Val
  seats : Val
  bodyTypeText : Val
  bodyColorText : Val
  conditionTypeText : Val
  city : Val
  firstRegYear : Val
  firstRegMonth : Val
  km : Val
  consumptionTotalText : Val
  condition : Val
  variant : Val
  zip : Val
deriving DecidableEq

/-- The fixed 18-field output schema produced by `integrate`. -/
structure IntegratedRecord where
  carType : Val
  color : Val
  condition : Val
  currency : Val
  drive : Val
  city : Val
  country : Val
  make : Val
  manufacture_year : Val
  mileage : Val
  mileage_unit : Val
  model : Val
  model_variant : Val
  price_on_request : Val
  type : Val
  zip : Val
  manufacture_month : Val
  fuel_consumption_unit : Val
deriving DecidableEq

/-- carType lookup table (identical literal in both source files). -/
def CARTYPE_TABLE : List (String × String) :=
  [("Coupé", "Coupé"), ("Limousine", "Saloon"),
   ("Cabriolet", "Convertible / Roadster"), ("Kombi", "Station Wagon"),
   ("SUV / Geländewagen", "SUV")]

/-- Ordered color table (identical literal in both source files). -/
def COLOR_TABLE : List (String × List String) :=
  [("Black", ["schwarz"]), ("Silver", ["silber"]), ("Blue", ["blau"]),
   ("Gray", ["grau", "anthrazit"]), ("White", ["weiss"]),
   ("Red", ["red", "bordeaux"]), ("Green", ["grün"]), ("Yellow", ["gelb"]),
   ("Purple", ["violett"]), ("Gold", ["gold"]), ("Brown", ["braun"]),
   ("Orange", ["orange"]), ("Beige", ["beige"])]

/-- Condition lookup table (identical literal in both source files). -/
def CONDITION_TABLE : List (String × String) :=
  [("Occasion", "Used"), ("Oldtimer", "Restored"), ("Neu", "New"),
   ("Vorführmodell", "Original Condition")]

/-- Zip lookup table (identical literal in both source files). -/
def ZIP_TABLE : List (String × String) :=
  [("Zuzwil", "9524"), ("Porrentruy", "2900"), ("Sursee", "6210"),
   ("Safenwil", "5745"), ("Basel", "4000"), ("St. Galen", "9000")]

/-- The inner `for german in germans: if german in text: return english`
loop of the color rule; errors when the cell is not a string. -/
def germanScan (v : Val) : List String → Except String Bool
  | [] => .ok false
  | g :: gs =>
    match pyInVal g v with
    | .error e => .error e
    | .ok true => .ok true
    | .ok false => germanScan v gs

/-- The outer loop of the color rule over the ordered color table. -/
def colorScan (v : Val) : List (String × List String) → Except String String
  | [] => .ok "Other"
  | (en, gs) :: rest =>
    match germanScan v gs with
    | .error e => .error e
    | .ok true => .ok en
    | .ok false => colorScan v rest

namespace OS

/-- `normalize_cartype` from onedot_solution.py: `row["Seats"] == 1`
compares against the integer 1; the dict lookup is wrapped in
`try/except KeyError` returning "Other". -/
def normalize_cartype (r : Record) : Val :=
  if pyEqInt r.seats 1 then .str "Single seater"
  else .str ((pyLookup CARTYPE_TABLE r.bodyTypeText).getD "Other")

/-- `normalize_color` from onedot_solution.py. -/
def normalize_color (r : Record) : Except String Val :=
  (colorScan r.bodyColorText COLOR_TABLE).map Val.str

/-- `normalize_condition` from onedot_solution.py. -/
def normalize_condition (r : Record) : Val :=
  .str ((pyLookup CONDITION_TABLE r.conditionTypeText).getD "Other")

/-- `normalize_variant` from onedot_solution.py:
strip model and model-type text, compare the length-of-model slice of
the latter case-insensitively against the former, return the stripped
remainder on a match and the raw TypeName cell otherwise. -/
def normalize_variant (r : Record) : Except String Val :=
  match pyStrip r.modelText with
  | .error e => .error e
  | .ok model =>
    match pyStrip r.modelTypeText with
    | .error e => .error e
    | .ok mv =>
      if (mv.take model.length).map lowerChar = model.map lowerChar then
        .ok (.str (String.mk (stripChars (mv.drop model.length))))
      else .ok r.typeName

/-- `normalize_zip` from onedot_solution.py. -/
def normalize_zip (r : Record) : Val :=
  .str ((pyLookup ZIP_TABLE r.city).getD "Other")

/-- `integrate` from onedot_solution.py.  Note the condition field reads
the raw `ConditionTypeText` column, not the `Condition` column that
`normalize` wrote. -/
def integrate (r : Record) : IntegratedRecord :=
  { carType := r.bodyTypeText
    color := r.bodyColorText
    condition := r.conditionTypeText
    currency := .str "CHF"
    drive := .str "LHD"
    city := r.city
    country := .str "CH"
    make := r.makeText
    manufacture_year := r.firstRegYear
    mileage := r.km
    mileage_unit := .str "kilometer"
    model := r.modelText
    model_variant := r.variant
    price_on_request := Val.pyNone
    type := .str "car"
    zip := r.zip
    manufacture_month := r.firstRegMonth
    fuel_consumption_unit :=
      if pyTruthy r.consumptionTotalText &&
         pyNeLit r.consumptionTotalText "null" then .str "l_km_consumption"
      else Val.pyNone }

end OS

namespace DAS

/-- `norm_cartype` from onedot_data_analyst_solution.py:
`row["Seats"] == '1'` compares against the string "1". -/
def norm_cartype (r : Record) : Val :=
  if pyEqLit r.seats "1" then .str "Single seater"
  else .str ((pyLookup CARTYPE_TABLE r.bodyTypeText).getD "Other")

/-- `norm_color` from onedot_data_analyst_solution.py. -/
def norm_color (r : Record) : Except String Val :=
  (colorScan r.bodyColorText COLOR_TABLE).map Val.str

/-- `norm_condition` from onedot_data_analyst_solution.py. -/
def norm_condition (r : Record) : Val :=
  .str ((pyLookup CONDITION_TABLE r.conditionTypeText).getD "Other")

/-- `norm_variant` from onedot_data_analyst_solution.py
(textually identical to `normalize_variant` in the other file). -/
def norm_variant (r : Record) : Except String Val :=
  match pyStrip r.modelText with
  | .error e => .error e
  | .ok model =>
    match pyStrip r.modelTypeText with
    | .error e => .error e
    | .ok mv =>
      if (mv.take model.length).map lowerChar = model.map lowerChar then
        .ok (.str (String.mk (stripChars (mv.drop model.length))))
      else .ok r.typeName

/-- `norm_zip` from onedot_data_analyst_solution.py. -/
def norm_zip (r : Record) : Val :=
  .str ((pyLookup ZIP_TABLE r.city).getD "Other")

/-- `integrate` from onedot_data_analyst_solution.py.  The condition
field reads the normalized `Condition` column. -/
def integrate (r : Record) : IntegratedRecord :=
  { carType := r.bodyTypeText
    color := r.bodyColorText
    condition := r.condition
    currency := .str "CHF"
    drive := .str "LHD"
    city := r.city
    country := .str "CH"
    make := r.makeText
    manufacture_year := r.firstRegYear
    mileage := r.km
    mileage_unit := .str "kilometer"
    model := r.modelText
    model_variant := r.variant
    price_on_request := Val.pyNone
    type := .str "car"
    zip := r.zip
    manufacture_month := r.firstRegMonth
    fuel_consumption_unit :=
      if pyTruthy r.consumptionTotalText &&
         pyNeLit r.consumptionTotalText "null" then .str "l_km_consumption"
      else Val.pyNone }

end DAS

/-- The five rewrite rules, one per entry of the `NORM_FUNCTIONS` /
`NORM_FUNCT` dicts of the two source files. -/
inductive NormRule where
  | cartype
  | color
  | condition
  | variant
  | zip
deriving DecidableEq

/-- The column each rule's result is assigned to
(`row[column] = funct(row)` in both source files). -/
def writeRule : NormRule → Val → Record → Record
  | .cartype, v, r => { r with bodyTypeText := v }
  | .color, v, r => { r with bodyColorText := v }
  | .condition, v, r => { r with condition := v }
  | .variant, v, r => { r with variant := v }
  | .zip, v, r => { r with zip := v }

/-- The dict-insertion order of `NORM_FUNCTIONS` / `NORM_FUNCT`. -/
def NORM_ORDER : List NormRule :=
  [.cartype, .color, .condition, .variant, .zip]

/-- The `for column, funct in ... .items(): row[column] = funct(row)`
loop, generic in the per-file rule table `ev`; a rule that raises aborts
the pass with its exception. -/
def runRules (ev : NormRule → Record → Except String Val) :
    List NormRule → Record → Except String Record
  | [], r => .ok r
  | i :: rest, r =>
    match ev i r with
    | .ok v => runRules ev rest (writeRule i v r)
    | .error e => .error e

namespace OS

/-- The `NORM_FUNCTIONS` dispatch of onedot_solution.py. -/
def evalRule : NormRule → Record → Except String Val
  | .cartype, r => .ok (normalize_cartype r)
  | .color, r => normalize_color r
  | .condition, r => .ok (normalize_condition r)
  | .variant, r => normalize_variant r
  | .zip, r => .ok (normalize_zip r)

/-- `normalize` from onedot_solution.py. -/
def normalize (r : Record) : Except String Record :=
  runRules evalRule NORM_ORDER r

end OS

namespace DAS

/-- The `NORM_FUNCT` dispatch of onedot_data_analyst_solution.py. -/
def evalRule : NormRule → Record → Except String Val
  | .cartype, r => .ok (norm_cartype r)
  | .color, r => norm_color r
  | .condition, r => .ok (norm_condition r)
  | .variant, r => norm_variant r
  | .zip, r => .ok (norm_zip r)

/-- `normalize` from onedot_data_analyst_solution.py. -/
def normalize (r : Record) : Except String Record :=
  runRules evalRule NORM_ORDER r

end DAS

/-- The inputs every rule can consume without raising: the color text,
model text and model-type text cells are strings.  (The carType,
condition and zip rules tolerate any cell.) -/
def StrInputs (r : Record) : Prop :=
  (∃ s, r.bodyColorText = Val.str s) ∧
  (∃ s, r.modelText = Val.str s) ∧
  (∃ s, r.modelTypeText = Val.str s)

/-- One raw input row: the six grouping columns plus its single
attribute name/value pair (its grouping identity and merge payload;
the other JSON fields play no role in aggregation). -/
structure RawRow where
  id : Val
  makeText : Val
  typeName : Val
  typeNameFull : Val
  modelText : Val
  modelTypeText : Val
  attrName : Val
  attrValue : Val
deriving DecidableEq

/-- The six-column grouping key. -/
structure GroupKey where
  id : Val
  makeText : Val
  typeName : Val
  typeNameFull : Val
  modelText : Val
  modelTypeText : Val
deriving DecidableEq

def keyOf (row : RawRow) : GroupKey :=
  { id := row.id, makeText := row.makeText, typeName := row.typeName,
    typeNameFull := row.typeNameFull, modelText := row.modelText,
    modelTypeText := row.modelTypeText }

/-- A pandas-missing cell (NaN or None), as `groupby`'s dropna sees it. -/
def isNA : Val → Bool
  | .nan => true
  | .pyNone => true
  | _ => false

/-- Does any of the six grouping columns hold a missing value? -/
def hasNAKey (row : RawRow) : Bool :=
  isNA row.id || isNA row.makeText || isNA row.typeName ||
  isNA row.typeNameFull || isNA row.modelText || isNA row.modelTypeText

/-- Python dict insertion with last-write-wins on a repeated key
(overwriting in place, appending a fresh key at the end). -/
def dictInsert (k v : Val) (d : List (Val × Val)) : List (Val × Val) :=
  if d.any (fun p => p.1 == k) then
    d.map (fun p => if p.1 == k then (k, v) else p)
  else d ++ [(k, v)]

/-- `{key: value for key, value in zip(row["Attribute Names"],
row["Attribute Values"])}` over a group's rows in order. -/
def mergeAttrs (rows : List RawRow) : List (Val × Val) :=
  rows.foldl (fun d row => dictInsert row.attrName row.attrValue d) []

/-- `df.groupby(six columns, dropna)`: one group per distinct key among
the retained rows, holding the rows with that key.  (pandas additionally
sorts the groups by key; group order is not modelled, no claim
concerns it.) -/
def pyGroupby (dropna : Bool) (rows : List RawRow) :
    List (GroupKey × List RawRow) :=
  let base := if dropna then rows.filter (fun r => !hasNAKey r) else rows
  ((base.map keyOf).dedup).map
    (fun k => (k, base.filter (fun r => keyOf r == k)))

/-- The merged record of one group: attribute dict plus the constant
grouping columns (`aggregate_attributes` / `aggr_attr` in the sources). -/
def mergeGroup (g : GroupKey × List RawRow) : GroupKey × List (Val × Val) :=
  (g.1, mergeAttrs g.2)

namespace OS

/-- `agg_data` of onedot_solution.py: `df.groupby(CONSTANT_COLUMNS)`
with the pandas default `dropna=True`, then per-group attribute merge. -/
def agg_data (rows : List RawRow) : List (GroupKey × List (Val × Val)) :=
  (pyGroupby true rows).map mergeGroup

end OS

/-- `astype('str')` on one cell: NaN prints as "nan", None as "None". -/
def pyStr : Val → Val
  | .str s => .str s
  | .nan => .str "nan"
  | .pyNone => .str "None"
  | .int n => .str (toString n)

namespace DAS

/-- `df_grp_agg_attr` of onedot_data_analyst_solution.py:
`groupby(..., dropna=False)`, then `ModelText` stringified with
`astype('str')`, then the per-group attribute merge. -/
def df_grp_agg_attr (rows : List RawRow) :
    List (GroupKey × List (Val × Val)) :=
  ((pyGroupby false rows).map
    (fun g => ({ g.1 with modelText := pyStr g.1.modelText }, g.2))).map
    mergeGroup

end DAS

/-- Spec-side restatement of the color rule (section 4.2 of the spec):
the canonical English name of the first table pair one of whose German
substrings occurs in the text, "Other" when none matches. -/
def colorSpecFirstMatch (s : String) : String :=
  ((COLOR_TABLE.find? (fun p => p.2.any (fun g => strContains g s))).map
    Prod.fst).getD "Other"

/-- Spec-side restatement of the variant rule's test (section 4.2 of
the spec): the model-type text, compared case-insensitively, starts
with the model text. -/
def startsWithCI (m mv : List Char) : Prop :=
  (mv.map lowerChar).take (m.map lowerChar).length = m.map lowerChar

instance (m mv : List Char) : Decidable (startsWithCI m mv) := by
  unfold startsWithCI; infer_instance

theorem germanScan_str (s : String) (gs : List String) :
    germanScan (.str s) gs = .ok (gs.any (fun g => strContains g s)) := by
  induction gs with
  | nil => rfl
  | cons g gs ih =>
    simp only [germanScan, pyInVal]
    cases h : strContains g s
    · simpa [h] using ih
    · simp [h]

theorem colorScan_str (s : String) (table : List (String × List String)) :
    colorScan (.str s) table =
      .ok (((table.find? (fun p => p.2.any (fun g => strContains g s))).map
        Prod.fst).getD "Other") := by
  induction table with
  | nil => rfl
  | cons p rest ih =>
    obtain ⟨en, gs⟩ := p
    simp only [colorScan, germanScan_str]
    cases h : gs.any (fun g => strContains g s)
    · simpa [List.find?_cons, h] using ih
    · simp [List.find?_cons, h]

theorem dropWhile_idem (p : Char → Bool) (l : List Char) :
    (l.dropWhile p).dropWhile p = l.dropWhile p := by
  induction l with
  | nil => rfl
  | cons a as ih =>
    by_cases h : p a
    · simp [List.dropWhile_cons, h, ih]
    · simp [List.dropWhile_cons, h]

theorem rtrim_idem (l : List Char) :
    rtrimChars (rtrimChars l) = rtrimChars l := by
  simp only [rtrimChars, List.reverse_reverse]
  rw [dropWhile_idem]

theorem dropWhile_suffix_decomp (p : Char → Bool) (l : List Char) :
    ∃ s, l = s ++ l.dropWhile p := by
  induction l with
  | nil => exact ⟨[], rfl⟩
  | cons a as ih =>
    by_cases h : p a
    · obtain ⟨s, hs⟩ := ih
      refine ⟨a :: s, ?_⟩
      simp only [List.dropWhile_cons, h, if_true, List.cons_append]
      exact congrArg (a :: ·) hs
    · exact ⟨[], by simp [List.dropWhile_cons, h]⟩

theorem ltrim_rtrim_of_ltrimmed (l : List Char) (h : ltrimChars l = l) :
    ltrimChars (rtrimChars l) = rtrimChars l := by
  cases hr : rtrimChars l with
  | nil => rfl
  | cons a t =>
    obtain ⟨s, hs⟩ := dropWhile_suffix_decomp isPySpace l.reverse
    have hl : l = rtrimChars l ++ s.reverse := by
      have h2 := congrArg List.reverse hs
      simpa [rtrimChars, List.reverse_append] using h2
    rw [hr] at hl
    simp only [List.cons_append] at hl
    have ha : isPySpace a = false := by
      have h2 : List.dropWhile isPySpace l = l := h
      rw [hl] at h2
      cases hsp : isPySpace a with
      | false => rfl
      | true =>
        rw [List.dropWhile_cons, if_pos (by simp [hsp])] at h2
        have hle :=
          (List.dropWhile_sublist (l := t ++ s.reverse) isPySpace).length_le
        rw [h2] at hle
        simp at hle
    show List.dropWhile isPySpace (a :: t) = a :: t
    rw [List.dropWhile_cons, if_neg (by simp [ha])]

theorem strip_idem (cs : List Char) :
    stripChars (stripChars cs) = stripChars cs := by
  have h1 : ltrimChars (ltrimChars cs) = ltrimChars cs := dropWhile_idem _ _
  have h2 := ltrim_rtrim_of_ltrimmed (ltrimChars cs) h1
  calc stripChars (stripChars cs)
      = rtrimChars (ltrimChars (rtrimChars (ltrimChars cs))) := rfl
    _ = rtrimChars (rtrimChars (ltrimChars cs)) := by rw [h2]
    _ = rtrimChars (ltrimChars cs) := rtrim_idem _

theorem variant_cond_iff (m mv : List Char) :
    ((mv.take m.length).map lowerChar = m.map lowerChar) ↔
      startsWithCI m mv := by
  unfold startsWithCI
  rw [List.length_map, ← List.map_take]

theorem writeRule_comm (i j : NormRule) (h : i ≠ j) (u v : Val)
    (r : Record) :
    writeRule i u (writeRule j v r) = writeRule j v (writeRule i u r) := by
  cases i <;> cases j <;> first | exact absurd rfl h | rfl

theorem runRules_perm (ev : NormRule → Record → Except String Val)
    (hsucc : ∀ i r, StrInputs r → ∃ v, ev i r = .ok v)
    (hpres : ∀ i r v, StrInputs r → ev i r = .ok v →
      StrInputs (writeRule i v r))
    (hcomm : ∀ i j v r, i ≠ j → ev i (writeRule j v r) = ev i r) :
    ∀ {p q : List NormRule}, p.Perm q → ∀ r, StrInputs r →
      runRules ev p r = runRules ev q r := by
  intro p q hpq
  induction hpq with
  | nil => intro r _; rfl
  | cons x hpq ih =>
    intro r hr
    obtain ⟨v, hv⟩ := hsucc x r hr
    simp only [runRules, hv]
    exact ih _ (hpres x r v hr hv)
  | swap x y l =>
    intro r hr
    by_cases hxy : x = y
    · subst hxy; rfl
    · obtain ⟨vy, hvy⟩ := hsucc y r hr
      obtain ⟨vx, hvx⟩ := hsucc x r hr
      have e1 : ev x (writeRule y vy r) = .ok vx := by
        rw [hcomm x y vy r hxy, hvx]
      have e2 : ev y (writeRule x vx r) = .ok vy := by
        rw [hcomm y x vx r (fun hyx => hxy hyx.symm), hvy]
      simp only [runRules, hvy, hvx, e1, e2]
      rw [writeRule_comm x y hxy vx vy r]
  | trans h1 h2 ih1 ih2 =>
    intro r hr
    rw [ih1 r hr, ih2 r hr]

theorem OS_comm : ∀ (i j : NormRule) (v : Val) (r : Record), i ≠ j →
    OS.evalRule i (writeRule j v r) = OS.evalRule i r := by
  intro i j v r h
  cases i <;> cases j <;> first | exact absurd rfl h | rfl

theorem DAS_comm : ∀ (i j : NormRule) (v : Val) (r : Record), i ≠ j →
    DAS.evalRule i (writeRule j v r) = DAS.evalRule i r := by
  intro i j v r h
  cases i <;> cases j <;> first | exact absurd rfl h | rfl

theorem OS_color_ok (r : Record) (c : String)
    (hc : r.bodyColorText = Val.str c) :
    OS.evalRule .color r = .ok (.str (colorSpecFirstMatch c)) := by
  simp only [OS.evalRule, OS.normalize_color, hc, colorScan_str]
  rfl

theorem DAS_color_ok (r : Record) (c : String)
    (hc : r.bodyColorText = Val.str c) :
    DAS.evalRule .color r = .ok (.str (colorSpecFirstMatch c)) := by
  simp only [DAS.evalRule, DAS.norm_color, hc, colorScan_str]
  rfl

theorem OS_succ : ∀ (i : NormRule) (r : Record), StrInputs r →
    ∃ v, OS.evalRule i r = .ok v := by
  intro i r hr
  obtain ⟨⟨c, hc⟩, ⟨m, hm⟩, ⟨t, ht⟩⟩ := hr
  cases i with
  | cartype => exact ⟨_, rfl⟩
  | condition => exact ⟨_, rfl⟩
  | zip => exact ⟨_, rfl⟩
  | color => exact ⟨_, OS_color_ok r c hc⟩
  | variant =>
    simp only [OS.evalRule, OS.normalize_variant, hm, ht, pyStrip]
    by_cases hcond : ((stripChars t.data).take
        (stripChars m.data).length).map lowerChar =
        (stripChars m.data).map lowerChar
    · exact ⟨_, by rw [if_pos hcond]⟩
    · exact ⟨_, by rw [if_neg hcond]⟩

theorem DAS_succ : ∀ (i : NormRule) (r : Record), StrInputs r →
    ∃ v, DAS.evalRule i r = .ok v := by
  intro i r hr
  obtain ⟨⟨c, hc⟩, ⟨m, hm⟩, ⟨t, ht⟩⟩ := hr
  cases i with
  | cartype => exact ⟨_, rfl⟩
  | condition => exact ⟨_, rfl⟩
  | zip => exact ⟨_, rfl⟩
  | color => exact ⟨_, DAS_color_ok r c hc⟩
  | variant =>
    simp only [DAS.evalRule, DAS.norm_variant, hm, ht, pyStrip]
    by_cases hcond : ((stripChars t.data).take
        (stripChars m.data).length).map lowerChar =
        (stripChars m.data).map lowerChar
    · exact ⟨_, by rw [if_pos hcond]⟩
    · exact ⟨_, by rw [if_neg hcond]⟩

theorem OS_pres : ∀ (i : NormRule) (r : Record) (v : Val), StrInputs r →
    OS.evalRule i r = .ok v → StrInputs (writeRule i v r) := by
  intro i r v hr hv
  obtain ⟨⟨c, hc⟩, ⟨m, hm⟩, ⟨t, ht⟩⟩ := hr
  cases i with
  | cartype => exact ⟨⟨c, hc⟩, ⟨m, hm⟩, ⟨t, ht⟩⟩
  | condition => exact ⟨⟨c, hc⟩, ⟨m, hm⟩, ⟨t, ht⟩⟩
  | variant => exact ⟨⟨c, hc⟩, ⟨m, hm⟩, ⟨t, ht⟩⟩
  | zip => exact ⟨⟨c, hc⟩, ⟨m, hm⟩, ⟨t, ht⟩⟩
  | color =>
    refine ⟨⟨colorSpecFirstMatch c, ?_⟩, ⟨m, hm⟩, ⟨t, ht⟩⟩
    have h2 := OS_color_ok r c hc
    rw [hv] at h2
    injection h2 with h3

theorem DAS_pres : ∀ (i : NormRule) (r : Record) (v : Val), StrInputs r →
    DAS.evalRule i r = .ok v → StrInputs (writeRule i v r) := by
  intro i r v hr hv
  obtain ⟨⟨c, hc⟩, ⟨m, hm⟩, ⟨t, ht⟩⟩ := hr
  cases i with
  | cartype => exact ⟨⟨c, hc⟩, ⟨m, hm⟩, ⟨t, ht⟩⟩
  | condition => exact ⟨⟨c, hc⟩, ⟨m, hm⟩, ⟨t, ht⟩⟩
  | variant => exact ⟨⟨c, hc⟩, ⟨m, hm⟩, ⟨t, ht⟩⟩
  | zip => exact ⟨⟨c, hc⟩, ⟨m, hm⟩, ⟨t, ht⟩⟩
  | color =>
    refine ⟨⟨colorSpecFirstMatch c, ?_⟩, ⟨m, hm⟩, ⟨t, ht⟩⟩
    have h2 := DAS_color_ok r c hc
    rw [hv] at h2
    injection h2 with h3

/-- A record whose every cell is missing, for building concrete
examples by field update. -/
def blankRecord : Record :=
  { id := .nan, makeText := .nan, typeName := .nan, typeNameFull := .nan,
    modelText := .nan, modelTypeText := .nan, seats := .nan,
    bodyTypeText := .nan, bodyColorText := .nan, conditionTypeText := .nan,
    city := .nan, firstRegYear := .nan, firstRegMonth := .nan, km := .nan,
    consumptionTotalText := .nan, condition := .nan, variant := .nan,
    zip := .nan }

def rSchwarz : Record :=
  { blankRecord with bodyColorText := .str "schwarz metallic" }

def rXyz : Record := { blankRecord with bodyColorText := .str "xyz" }

/-- Claim C7: for every raw color text, the color rule returns the
canonical English name of the first pair in the fixed ordered list whose
German substring occurs in the text (case-sensitive containment, earlier
pairs win), and "Other" when no substring matches; in particular
"schwarz metallic" maps to "Black" and "xyz" maps to "Other". -/
theorem claim_c7_color_rule :
    (∀ (r : Record) (s : String), r.bodyColorText = Val.str s →
      OS.normalize_color r = .ok (.str (colorSpecFirstMatch s)) ∧
      DAS.norm_color r = .ok (.str (colorSpecFirstMatch s))) ∧
    OS.normalize_color rSchwarz = .ok (.str "Black") ∧
    DAS.norm_color rSchwarz = .ok (.str "Black") ∧
    OS.normalize_color rXyz = .ok (.str "Other") ∧
    DAS.norm_color rXyz = .ok (.str "Other") := by
  refine ⟨fun r s hs => ⟨?_, ?_⟩, rfl, rfl, rfl, rfl⟩
  · exact OS_color_ok r s hs
  · exact DAS_color_ok r s hs

/-- Witness for C7: the quantified part of the claim applied to the
concrete record with color text "schwarz metallic". -/
theorem claim_c7_witness :
    OS.normalize_color rSchwarz =
      .ok (.str (colorSpecFirstMatch "schwarz metallic")) ∧
    DAS.norm_color rSchwarz =
      .ok (.str (colorSpecFirstMatch "schwarz metallic")) :=
  claim_c7_color_rule.1 rSchwarz "schwarz metallic" rfl

/-- Claim C8: the variant rule strips whitespace from model text and
model-type text; when the stripped model-type text starts
case-insensitively with the stripped model text the result is the
whitespace-trimmed remainder, otherwise the raw type-name cell
verbatim. -/
theorem claim_c8_variant_rule :
    ∀ (r : Record) (m t : String), r.modelText = Val.str m →
      r.modelTypeText = Val.str t →
      (startsWithCI (stripChars m.data) (stripChars t.data) →
        OS.normalize_variant r =
          .ok (.str (String.mk (stripChars
            ((stripChars t.data).drop (stripChars m.data).length)))) ∧
        DAS.norm_variant r =
          .ok (.str (String.mk (stripChars
            ((stripChars t.data).drop (stripChars m.data).length))))) ∧
      (¬ startsWithCI (stripChars m.data) (stripChars t.data) →
        OS.normalize_variant r = .ok r.typeName ∧
        DAS.norm_variant r = .ok r.typeName) := by
  intro r m t hm ht
  constructor
  · intro hci
    have hcond :=
      (variant_cond_iff (stripChars m.data) (stripChars t.data)).mpr hci
    constructor
    · simp only [OS.normalize_variant, hm, ht, pyStrip]
      rw [if_pos hcond]
    · simp only [DAS.norm_variant, hm, ht, pyStrip]
      rw [if_pos hcond]
  · intro hci
    have hcond := fun hc => hci ((variant_cond_iff _ _).mp hc)
    constructor
    · simp only [OS.normalize_variant, hm, ht, pyStrip]
      rw [if_neg hcond]
    · simp only [DAS.norm_variant, hm, ht, pyStrip]
      rw [if_neg hcond]

def rA4 : Record :=
  { blankRecord with
    modelText := .str "A4"
    modelTypeText := .str "A4 Avant"
    typeName := .str "A4 Avant 2.0" }

/-- Witness for C8: the spec example model "A4", model-type "A4 Avant"
yields variant "Avant" in both implementations. -/
theorem claim_c8_witness :
    OS.normalize_variant rA4 = .ok (.str "Avant") ∧
    DAS.norm_variant rA4 = .ok (.str "Avant") :=
  (claim_c8_variant_rule rA4 "A4" "A4 Avant" rfl rfl).1 (by decide)

/-- Claim C10: when the model text strips to the empty string the
variant rule never takes the type-name fallback: the empty prefix
matches trivially and the variant is the whole whitespace-stripped
model-type text. -/
theorem claim_c10_empty_model :
    ∀ (r : Record) (m t : String), r.modelText = Val.str m →
      stripChars m.data = [] → r.modelTypeText = Val.str t →
      OS.normalize_variant r = .ok (.str (String.mk (stripChars t.data))) ∧
      DAS.norm_variant r = .ok (.str (String.mk (stripChars t.data))) := by
  intro r m t hm hstrip ht
  constructor
  · simp only [OS.normalize_variant, hm, ht, pyStrip, hstrip]
    rw [if_pos (by simp)]
    rw [List.length_nil, List.drop_zero, strip_idem]
  · simp only [DAS.norm_variant, hm, ht, pyStrip, hstrip]
    rw [if_pos (by simp)]
    rw [List.length_nil, List.drop_zero, strip_idem]

def rEmptyModel : Record :=
  { blankRecord with
    modelText := .str "  "
    modelTypeText := .str " X5 M "
    typeName := .str "fallback" }

/-- Witness for C10: a whitespace-only model text together with
model-type text " X5 M " yields the stripped model-type text. -/
theorem claim_c10_witness :
    OS.normalize_variant rEmptyModel =
      .ok (.str (String.mk (stripChars (" X5 M " : String).data))) ∧
    DAS.norm_variant rEmptyModel =
      .ok (.str (String.mk (stripChars (" X5 M " : String).data))) :=
  claim_c10_empty_model rEmptyModel "  " " X5 M " rfl (by decide) rfl

/-- Claim C9: the five rewrite rules are order-insensitive: for every
record all five rules accept (string color text, model text and
model-type text), applying the five (column, rule) pairs in any
permutation of the dict order, each rule reading the record as left by
the previous ones, produces the same normalized record, in both
implementations. -/
theorem claim_c9_order_insensitive :
    ∀ (p : List NormRule), p.Perm NORM_ORDER → ∀ r, StrInputs r →
      runRules OS.evalRule p r = OS.normalize r ∧
      runRules DAS.evalRule p r = DAS.normalize r := by
  intro p hp r hr
  exact ⟨runRules_perm OS.evalRule OS_succ OS_pres OS_comm hp r hr,
         runRules_perm DAS.evalRule DAS_succ DAS_pres DAS_comm hp r hr⟩

def permExample : List NormRule :=
  [.zip, .variant, .condition, .color, .cartype]

def rOrder : Record :=
  { blankRecord with
    bodyColorText := .str "blau"
    modelText := .str "A4"
    modelTypeText := .str "A4 Avant" }

/-- Witness for C9: the reversed rule order applied to a concrete
record agrees with the dict order in both implementations. -/
theorem claim_c9_witness :
    runRules OS.evalRule permExample rOrder = OS.normalize rOrder ∧
    runRules DAS.evalRule permExample rOrder = DAS.normalize rOrder :=
  claim_c9_order_insensitive permExample (by decide) rOrder
    ⟨⟨"blau", rfl⟩, ⟨"A4", rfl⟩, ⟨"A4 Avant", rfl⟩⟩


def rOccasion : Record :=
  { blankRecord with
    conditionTypeText := .str "Occasion"
    bodyColorText := .str "schwarz"
    modelText := .str "A4"
    modelTypeText := .str "A4 Avant"
    typeName := .str "A4 Avant"
    seats := .str "5"
    bodyTypeText := .str "Kombi"
    city := .str "Basel" }

/-- Claim C1 (code bug in onedot_solution.py): at a record whose raw
condition-type text is "Occasion", the condition rewrite rule produces
"Used" (stored in the Condition column), yet onedot_solution.py's
integrate reads the raw ConditionTypeText column and emits "Occasion";
onedot_data_analyst_solution.py's integrate emits the normalized
"Used". -/
theorem claim_c1_condition_bug :
    (OS.normalize rOccasion).map
      (fun n => ((OS.integrate n).condition, n.condition)) =
      .ok (.str "Occasion", .str "Used") ∧
    (DAS.normalize rOccasion).map
      (fun n => (DAS.integrate n).condition) = .ok (.str "Used") := by
  constructor <;> rfl

def rSeatsOne : Record :=
  { blankRecord with
    seats := .str "1"
    bodyTypeText := .str "Limousine" }

/-- Claim C6 (code bug in onedot_solution.py): seat counts arrive as
JSON strings (the spec scenario gives the attribute pair
("Seats","1")), and `normalize_cartype` compares the Seats cell to the
integer 1, which no string equals; so a single-seater with body-type
text "Limousine" normalizes to "Saloon" instead of "Single seater".
`norm_cartype` of the other file compares to the string "1" and
returns "Single seater" as the claim requires. -/
theorem claim_c6_single_seater_bug :
    OS.normalize_cartype rSeatsOne = .str "Saloon" ∧
    DAS.norm_cartype rSeatsOne = .str "Single seater" := ⟨rfl, rfl⟩

/-- Counterexample for C2: on a record whose color-text cell is missing
the color rule raises a TypeError instead of returning a no-match
result. -/
theorem claim_c2_counterexample :
    blankRecord.bodyColorText = Val.nan ∧
    OS.normalize_color blankRecord = .error "TypeError" ∧
    DAS.norm_color blankRecord = .error "TypeError" := ⟨rfl, rfl, rfl⟩

/-- Claim C2 as amended: the carType, condition and zip rules tolerate
a missing input cell and return "Other", but the color rule raises a
TypeError and the variant rule raises an AttributeError when their
input cells are missing. -/
theorem claim_c2_amended :
    ∀ r : Record,
      (r.seats = Val.nan → r.bodyTypeText = Val.nan →
        OS.normalize_cartype r = .str "Other" ∧
        DAS.norm_cartype r = .str "Other") ∧
      (r.conditionTypeText = Val.nan →
        OS.normalize_condition r = .str "Other" ∧
        DAS.norm_condition r = .str "Other") ∧
      (r.city = Val.nan →
        OS.normalize_zip r = .str "Other" ∧
        DAS.norm_zip r = .str "Other") ∧
      (r.bodyColorText = Val.nan →
        OS.normalize_color r = .error "TypeError" ∧
        DAS.norm_color r = .error "TypeError") ∧
      (r.modelTypeText = Val.nan →
        (∃ e, OS.normalize_variant r = .error e) ∧
        (∃ e, DAS.norm_variant r = .error e)) := by
  intro r
  refine ⟨fun h1 h2 => ?_, fun h => ?_, fun h => ?_, fun h => ?_,
    fun h => ?_⟩
  · constructor <;>
      simp [OS.normalize_cartype, DAS.norm_cartype, pyEqInt, pyEqLit,
        pyLookup, h1, h2]
  · constructor <;>
      simp [OS.normalize_condition, DAS.norm_condition, pyLookup, h]
  · constructor <;> simp [OS.normalize_zip, DAS.norm_zip, pyLookup, h]
  · constructor
    · show (colorScan r.bodyColorText COLOR_TABLE).map Val.str =
        .error "TypeError"
      rw [h]
      rfl
    · show (colorScan r.bodyColorText COLOR_TABLE).map Val.str =
        .error "TypeError"
      rw [h]
      rfl
  · constructor
    · cases hm : r.modelText with
      | str s =>
        exact ⟨"AttributeError",
          by simp [OS.normalize_variant, hm, h, pyStrip]⟩
      | nan =>
        exact ⟨"AttributeError", by simp [OS.normalize_variant, hm, pyStrip]⟩
      | pyNone =>
        exact ⟨"AttributeError", by simp [OS.normalize_variant, hm, pyStrip]⟩
      | int n =>
        exact ⟨"AttributeError", by simp [OS.normalize_variant, hm, pyStrip]⟩
    · cases hm : r.modelText with
      | str s =>
        exact ⟨"AttributeError", by simp [DAS.norm_variant, hm, h, pyStrip]⟩
      | nan =>
        exact ⟨"AttributeError", by simp [DAS.norm_variant, hm, pyStrip]⟩
      | pyNone =>
        exact ⟨"AttributeError", by simp [DAS.norm_variant, hm, pyStrip]⟩
      | int n =>
        exact ⟨"AttributeError", by simp [DAS.norm_variant, hm, pyStrip]⟩

/-- Witness for C2 amended: on the all-missing record the condition
rules return "Other" while the color rules raise. -/
theorem claim_c2_witness :
    (OS.normalize_condition blankRecord = .str "Other" ∧
     DAS.norm_condition blankRecord = .str "Other") ∧
    (OS.normalize_color blankRecord = .error "TypeError" ∧
     DAS.norm_color blankRecord = .error "TypeError") :=
  ⟨(claim_c2_amended blankRecord).2.1 rfl,
   (claim_c2_amended blankRecord).2.2.2.1 rfl⟩

/-- Counterexample for C3: a record whose consumption-text cell is
missing (NaN).  NaN is truthy in Python, so integrate emits
"l_km_consumption" where the claim requires empty/absent. -/
theorem claim_c3_counterexample :
    blankRecord.consumptionTotalText = Val.nan ∧
    (OS.integrate blankRecord).fuel_consumption_unit =
      .str "l_km_consumption" ∧
    (DAS.integrate blankRecord).fuel_consumption_unit =
      .str "l_km_consumption" := ⟨rfl, rfl, rfl⟩

/-- Claim C3 as amended: fuel_consumption_unit is "l_km_consumption"
exactly when the consumption-text cell is Python-truthy and not the
literal string "null"; since NaN is truthy, a missing cell also yields
"l_km_consumption", while an empty string, None, or "null" yields
empty/absent. -/
theorem claim_c3_amended :
    ∀ r : Record,
      (∀ s, r.consumptionTotalText = Val.str s → s ≠ "" → s ≠ "null" →
        (OS.integrate r).fuel_consumption_unit = .str "l_km_consumption" ∧
        (DAS.integrate r).fuel_consumption_unit =
          .str "l_km_consumption") ∧
      (r.consumptionTotalText = Val.str "" →
        (OS.integrate r).fuel_consumption_unit = Val.pyNone ∧
        (DAS.integrate r).fuel_consumption_unit = Val.pyNone) ∧
      (r.consumptionTotalText = Val.str "null" →
        (OS.integrate r).fuel_consumption_unit = Val.pyNone ∧
        (DAS.integrate r).fuel_consumption_unit = Val.pyNone) ∧
      (r.consumptionTotalText = Val.pyNone →
        (OS.integrate r).fuel_consumption_unit = Val.pyNone ∧
        (DAS.integrate r).fuel_consumption_unit = Val.pyNone) ∧
      (r.consumptionTotalText = Val.nan →
        (OS.integrate r).fuel_consumption_unit =
          .str "l_km_consumption" ∧
        (DAS.integrate r).fuel_consumption_unit =
          .str "l_km_consumption") := by
  intro r
  refine ⟨fun s hs hne1 hne2 => ?_, fun h => ?_, fun h => ?_,
    fun h => ?_, fun h => ?_⟩
  · constructor <;>
      simp [OS.integrate, DAS.integrate, pyTruthy, pyNeLit, hs, hne1, hne2]
  · constructor <;> simp [OS.integrate, DAS.integrate, pyTruthy, pyNeLit, h]
  · constructor <;> simp [OS.integrate, DAS.integrate, pyTruthy, pyNeLit, h]
  · constructor <;> simp [OS.integrate, DAS.integrate, pyTruthy, pyNeLit, h]
  · constructor <;> simp [OS.integrate, DAS.integrate, pyTruthy, pyNeLit, h]

def rCons : Record :=
  { blankRecord with consumptionTotalText := .str "5.5" }

def rConsNull : Record :=
  { blankRecord with consumptionTotalText := .str "null" }

/-- Witness for C3 amended: a real consumption text yields the unit,
the sentinel "null" yields the empty value. -/
theorem claim_c3_witness :
    ((OS.integrate rCons).fuel_consumption_unit =
        .str "l_km_consumption" ∧
     (DAS.integrate rCons).fuel_consumption_unit =
        .str "l_km_consumption") ∧
    ((OS.integrate rConsNull).fuel_consumption_unit = Val.pyNone ∧
     (DAS.integrate rConsNull).fuel_consumption_unit = Val.pyNone) :=
  ⟨(claim_c3_amended rCons).1 "5.5" rfl (by decide) (by decide),
   (claim_c3_amended rConsNull).2.2.1 rfl⟩

def rawNullModel : RawRow :=
  { id := .int 1
    makeText := .str "Audi"
    typeName := .str "A4"
    typeNameFull := .str "Audi A4"
    modelText := .nan
    modelTypeText := .str "A4 Avant"
    attrName := .str "Seats"
    attrValue := .str "5" }

/-- Counterexample for C4: one raw row whose model text is missing
forms one distinct key tuple, yet onedot_solution.py's aggregation
(pandas groupby default dropna=True) outputs no record for it;
onedot_data_analyst_solution.py's aggregation keeps it. -/
theorem claim_c4_counterexample :
    (([rawNullModel].map keyOf).dedup).length = 1 ∧
    (OS.agg_data [rawNullModel]).length = 0 ∧
    (DAS.df_grp_agg_attr [rawNullModel]).length = 1 := ⟨rfl, rfl, rfl⟩

/-- Claim C4 as amended: the aggregator of
onedot_data_analyst_solution.py outputs exactly one aggregated record
per distinct six-column key tuple, null-bearing tuples included; the
aggregator of onedot_solution.py outputs one record per distinct tuple
among the rows whose key has no missing value (null-bearing groups are
dropped by the pandas groupby default). -/
theorem claim_c4_group_counts :
    ∀ rows : List RawRow,
      (DAS.df_grp_agg_attr rows).length =
        ((rows.map keyOf).dedup).length ∧
      (OS.agg_data rows).length =
        (((rows.filter (fun r => !hasNAKey r)).map keyOf).dedup).length := by
  intro rows
  constructor
  · simp [DAS.df_grp_agg_attr, pyGroupby]
  · simp [OS.agg_data, pyGroupby]

/-- Claim C5 as amended: the color, condition, variant and zip rewrite
rules of the two implementations are extensionally equal, and
integration agrees on every output field except condition. -/
theorem claim_c5_shared_parts :
    (∀ r, OS.normalize_color r = DAS.norm_color r) ∧
    (∀ r, OS.normalize_condition r = DAS.norm_condition r) ∧
    (∀ r, OS.normalize_variant r = DAS.norm_variant r) ∧
    (∀ r, OS.normalize_zip r = DAS.norm_zip r) ∧
    (∀ r, { OS.integrate r with condition := Val.nan } =
      { DAS.integrate r with condition := Val.nan }) :=
  ⟨fun _ => rfl, fun _ => rfl, fun _ => rfl, fun _ => rfl, fun _ => rfl⟩

def rC5 : Record :=
  { blankRecord with
    conditionTypeText := .str "Oldtimer"
    bodyColorText := .str "rot"
    modelText := .str ""
    modelTypeText := .str ""
    typeName := .str "T" }

/-- Counterexample for C5: at a record with condition-type text
"Oldtimer" the two pipelines' integrated condition fields differ
(raw "Oldtimer" vs normalized "Restored"), so the two implementations
are not extensionally equal. -/
theorem claim_c5_counterexample :
    (OS.normalize rC5).map (fun n => (OS.integrate n).condition) ≠
    (DAS.normalize rC5).map (fun n => (DAS.integrate n).condition) := by
  have h1 : (OS.normalize rC5).map (fun n => (OS.integrate n).condition) =
      .ok (.str "Oldtimer") := rfl
  have h2 : (DAS.normalize rC5).map (fun n => (DAS.integrate n).condition) =
      .ok (.str "Restored") := rfl
  rw [h1, h2]
  intro h
  injection h with h3
  injection h3 with h4
  exact absurd h4 (by decide)
